import Mathlib

/-!
Shallow embedding of `src/script/Log_Report_Generator.py`.

The script is a straight-line pandas pipeline.  Steps 1-4 (unzip, file
concatenation, TSV-to-CSV conversion, `read_csv`) are I/O plumbing that hands
the core a list of parsed CSV rows; we model their result as a `List RawRecord`
(the data rows of the merged CSV, each cell kept as its raw text, so that
`read_csv`'s whole-column dtype inference can be modelled on top of it).
Steps 5-10 are modelled faithfully below:

  * Step 5 (lines 161-168): the behaviour depends on the dtype `read_csv`
    inferred for the `NUM_SUBMITTED_REQUESTS` column.  When every cell of the
    column is a numeric literal the column is numeric (int64/float64):
    `pd.to_numeric(..., errors='coerce').notnull()` drops nothing and
    `astype(int)` truncates each value toward zero (3.5 becomes 3), no error.
    When at least one cell is not numeric (the operative case: the file merge
    leaves repeated header lines among the data rows) the column is object
    dtype with string cells: the coercion mask drops the non-numeric rows and
    `astype(int)` applies Python `int()` to each surviving string, raising
    `ValueError` — aborting the run — on a numeric-but-non-integer cell such
    as `"3.5"`.  (Empty cells, which `read_csv` would turn into NaN, do not
    occur in the inputs considered.)
  * Step 6 (lines 174-186): print `index[0]` / `index[-1]` (raising an
    `IndexError` on an empty frame), then trim to the date window by
    lexicographic comparison of the first space-separated token of
    `WHEN_CREATED` against the two date arguments.
  * Step 7 (lines 195-208): `value_counts` of `USER_ID`, and `groupby` mean
    and sum of `NUM_SUBMITTED_REQUESTS`.
  * Step 8 (lines 215-231): the three series are merged on `USER_ID`; all
    three have exactly the distinct user ids as keys, each key unique, so the
    inner merges keep every key, in the groupby key order (sorted ascending,
    `value_counts` being merged into the groupby-ordered left frame); the
    average column is rounded to 1 decimal (numpy half-to-even).
  * Step 9 (lines 238-247): left merge with the lookup table on `USER_ID`;
    pandas left-merge emits one row per matching right-side row (fan-out on
    duplicate keys) and a single row with null fields when there is no match.
  * Step 10 (line 254): `to_csv` always writes the header row, then one line
    per data row, missing values as empty strings.

Machine floats are modelled as exact rationals; `num_submitted_requests` as an
integer; aborts (uncaught exceptions) as `none`.
-/

namespace LogReport

/-- One data row of the merged CSV as `read_csv` hands it to step 5.  Only the
three columns the script uses downstream are kept; the other seven columns
(`ID`, `BUSINESS_APPLICATION_NAME`, ...) are never read after step 4.  The
job-size field is still a raw string at this point. -/
structure RawRecord where
  user_id : String
  when_created : String
  num_submitted_requests : String
deriving DecidableEq

/-- A log record after step 5: the job-size column has been coerced to int. -/
structure LogRecord where
  user_id : String
  when_created : String
  num_submitted_requests : Int
deriving DecidableEq

/-- One row of the client lookup table (`dfLookUpTable`, line 238). -/
structure DirEntry where
  user_id : String
  user_name : String
  email : String
  org : String
deriving DecidableEq

/-- One row of `dfFinalReport` (line 231): per-user metrics. -/
structure MetricsRow where
  user_id : String
  total : Int
  jobs : Nat
  avg : ℚ
deriving DecidableEq

/-- One row of `dfCPFUsage` (line 247): metrics joined with directory fields,
the latter `none` when the left merge found no lookup-table match. -/
structure ReportRow where
  user_id : String
  total : Int
  jobs : Nat
  avg : ℚ
  user_name : Option String
  email : Option String
  org : Option String
deriving DecidableEq

/-- Strip one leading sign character, as numeric parsing does. -/
def stripSign (cs : List Char) : List Char :=
  match cs with
  | '+' :: rest => rest
  | '-' :: rest => rest
  | cs => cs

/-- Does `pd.to_numeric(s, errors='coerce')` succeed on the string `s`?
Models the decimal-literal grammar `[sign] digits [. digits]` / `[sign] . digits`
(scientific notation and surrounding whitespace, which pandas also accepts,
do not occur in the inputs considered here). -/
def isNumeric (s : String) : Bool :=
  let cs := stripSign s.data
  let intPart := cs.takeWhile Char.isDigit
  let rest := cs.dropWhile Char.isDigit
  match rest with
  | [] => !intPart.isEmpty
  | '.' :: frac => (!intPart.isEmpty || !frac.isEmpty) && frac.all Char.isDigit
  | _ => false

/-- Value of a digit string, most significant first. -/
def digitsToNat (ds : List Char) : Nat :=
  ds.foldl (fun a c => 10 * a + (c.toNat - '0'.toNat)) 0

/-- Parse a non-empty all-digit string. -/
def parseNatDigits (ds : List Char) : Option Nat :=
  if ds ≠ [] ∧ ds.all Char.isDigit then some (digitsToNat ds) else none

/-- Python `int(s)`: models `astype(int)` applied to one object-dtype cell
(line 167).  `none` is the `ValueError` raised on a numeric-but-non-integer
string such as `"3.5"`. -/
def parseInt (s : String) : Option Int :=
  match s.data with
  | '-' :: ds => (parseNatDigits ds).map (fun n => -(n : Int))
  | '+' :: ds => (parseNatDigits ds).map (fun n => (n : Int))
  | ds => (parseNatDigits ds).map (fun n => (n : Int))

/-- Truncation toward zero of a numeric decimal literal: the value
`astype(int)` produces from a float64 cell (the fractional digits are cut
off, the sign kept).  Only applied to strings accepted by `isNumeric`. -/
def truncNumeric (s : String) : Int :=
  match s.data with
  | '-' :: ds => -(digitsToNat (ds.takeWhile Char.isDigit) : Int)
  | '+' :: ds => (digitsToNat (ds.takeWhile Char.isDigit) : Int)
  | ds => (digitsToNat (ds.takeWhile Char.isDigit) : Int)

/-- Step 5 (lines 161-168), including `read_csv`'s whole-column dtype
inference.  All cells numeric ⇒ numeric column: the coercion mask keeps every
row and `astype(int)` truncates each value toward zero.  Otherwise ⇒ object
column of strings: the mask drops the non-numeric rows, and `astype(int)`
runs Python `int()` on each surviving cell — `none` models the `ValueError`
raised on a numeric-but-non-integer cell. -/
def csvLogFileContent (raws : List RawRecord) : Option (List LogRecord) :=
  if raws.all (fun r => isNumeric r.num_submitted_requests) then
    some (raws.map (fun r =>
      LogRecord.mk r.user_id r.when_created (truncNumeric r.num_submitted_requests)))
  else
    (raws.filter (fun r => isNumeric r.num_submitted_requests)).mapM
      (fun r => (parseInt r.num_submitted_requests).map
        (fun n => LogRecord.mk r.user_id r.when_created n))

/-- `WHEN_CREATED.str.split(' ').str[0]` (lines 182-186): the first
space-separated token, i.e. the `YYYY-MM-DD` part of a well-formed timestamp,
kept as a character list so comparisons are lexicographic. -/
def dayOf (s : String) : List Char := s.data.takeWhile (fun c => c ≠ ' ')

/-- Step 6 (lines 182-186): trim to the date window.  Both masks compare the
day token lexicographically with the raw CLI date strings; the second mask is
built from the untrimmed frame but applied to the trimmed one, which selects
exactly the trimmed rows whose day token is `≤ endDate`. -/
def csvLogFileContentTrimmed (recs : List LogRecord) (startDate endDate : String) :
    List LogRecord :=
  (recs.filter (fun r => decide (startDate.data ≤ dayOf r.when_created))).filter
    (fun r => decide (dayOf r.when_created ≤ endDate.data))

/-- Line 195: `value_counts` of `USER_ID` — number of records per user. -/
def seriesJobSubmissions (recs : List LogRecord) (u : String) : Nat :=
  (recs.filter (fun r => decide (r.user_id = u))).length

/-- Lines 204-205: `groupby('USER_ID').sum().NUM_SUBMITTED_REQUESTS`. -/
def seriesTotalAddresses (recs : List LogRecord) (u : String) : Int :=
  ((recs.filter (fun r => decide (r.user_id = u))).map
    LogRecord.num_submitted_requests).sum

/-- Lines 199-200: `groupby('USER_ID').mean().NUM_SUBMITTED_REQUESTS` (the
mean keeps only the numeric column). -/
def seriesAveragePerJob (recs : List LogRecord) (u : String) : ℚ :=
  (seriesTotalAddresses recs u : ℚ) / (seriesJobSubmissions recs u : ℚ)

/-- numpy round-half-to-even to an integer, on exact rationals. -/
def roundHalfEven (q : ℚ) : ℤ :=
  if q - ⌊q⌋ < 1/2 then ⌊q⌋
  else if 1/2 < q - ⌊q⌋ then ⌊q⌋ + 1
  else if 2 ∣ ⌊q⌋ then ⌊q⌋ else ⌊q⌋ + 1

/-- `.round(1)` (line 231): round to one decimal place, half to even. -/
def round10 (q : ℚ) : ℚ := (roundHalfEven (10 * q) : ℚ) / 10

/-- Lexicographic order on user ids, the order pandas `groupby` sorts string
keys into. -/
def userLe (u v : String) : Prop := u.data ≤ v.data

instance : DecidableRel userLe :=
  fun u v => inferInstanceAs (Decidable (u.data ≤ v.data))

instance : IsTotal String userLe := ⟨fun u v => le_total u.data v.data⟩

instance : IsTrans String userLe := ⟨fun _ _ _ h h' => le_trans h h'⟩

/-- The groupby keys: the distinct user ids of the filtered records, sorted
ascending (`groupby` sorts its keys by default). -/
def sortedUsers (recs : List LogRecord) : List String :=
  List.insertionSort userLe ((recs.map LogRecord.user_id).dedup)

/-- The `dfFinalReport` row of one user (lines 215-231): the three series
merged on `USER_ID`, the average rounded to one decimal. -/
def metricsRowOf (recs : List LogRecord) (u : String) : MetricsRow :=
  { user_id := u
    total := seriesTotalAddresses recs u
    jobs := seriesJobSubmissions recs u
    avg := round10 (seriesAveragePerJob recs u) }

/-- Step 8 (lines 215-231): the merged per-user metrics frame.  All three
series have exactly the distinct user ids as (unique) keys, so the inner
merges keep every key, in the sorted order of the groupby-derived left frame. -/
def dfFinalReport (recs : List LogRecord) : List MetricsRow :=
  (sortedUsers recs).map (metricsRowOf recs)

/-- The rows a pandas left merge emits for one left-side row (line 247): one
row per matching lookup-table row, in right-frame order (fan-out on duplicate
keys), or a single row with null directory fields when there is no match. -/
def leftJoinRow (dir : List DirEntry) (m : MetricsRow) : List ReportRow :=
  match dir.filter (fun d => decide (d.user_id = m.user_id)) with
  | [] => [{ user_id := m.user_id, total := m.total, jobs := m.jobs, avg := m.avg,
             user_name := none, email := none, org := none }]
  | ds => ds.map (fun d =>
      { user_id := m.user_id, total := m.total, jobs := m.jobs, avg := m.avg,
        user_name := some d.user_name, email := some d.email, org := some d.org })

/-- Step 9 (line 247): `dfFinalReport.merge(dfLookUpTable, how='left')`,
keeping the left-frame row order. -/
def dfCPFUsage (metrics : List MetricsRow) (dir : List DirEntry) : List ReportRow :=
  metrics.flatMap (leftJoinRow dir)

/-- The header `to_csv` writes (line 254): the four metric columns followed by
the lookup-table columns in their source order. -/
def csvHeaderRow : List String :=
  ["USER_ID", "Total", "Jobs", "Avg", "User_Name", "Email", "Org"]

/-- Step 10 (line 254): serialize the joined frame; the header row is always
written, missing directory values become empty fields. -/
def toCsv (rows : List ReportRow) : List (List String) :=
  csvHeaderRow :: rows.map (fun r =>
    [r.user_id, toString r.total, toString r.jobs, toString r.avg,
     r.user_name.getD "", r.email.getD "", r.org.getD ""])

/-- The whole run on the ingested rows (steps 5-10): `none` models an uncaught
exception — the `astype(int)` `ValueError` of step 5, or the `IndexError` of
step 6's date-range printout on an empty frame (`csvLogFileContent.index[0]`,
line 176). -/
def pipeline (raws : List RawRecord) (startDate endDate : String)
    (dir : List DirEntry) : Option (List ReportRow) :=
  match csvLogFileContent raws with
  | none => none
  | some recs =>
    if recs.isEmpty then none
    else
      some (dfCPFUsage (dfFinalReport (csvLogFileContentTrimmed recs startDate endDate)) dir)

/-- Modelled from the spec: the script itself never parses or validates the
date arguments (lines 77-78 store `sys.argv` strings verbatim), so the spec's
notion of a string "parseable as a date" (`YYYY-MM-DD`, zero-padded) is
modelled here only to state claims about date validity. -/
def isValidDate (s : String) : Bool :=
  match s.data with
  | [y1, y2, y3, y4, '-', m1, m2, '-', d1, d2] =>
    ([y1, y2, y3, y4, m1, m2, d1, d2].all Char.isDigit) &&
      (let m := 10 * (m1.toNat - '0'.toNat) + (m2.toNat - '0'.toNat)
       let d := 10 * (d1.toNat - '0'.toNat) + (d2.toNat - '0'.toNat)
       decide (1 ≤ m) && decide (m ≤ 12) && decide (1 ≤ d) && decide (d ≤ 31))
  | _ => false

/-! ### Helper lemmas -/

theorem mem_sortedUsers {recs : List LogRecord} {u : String} :
    u ∈ sortedUsers recs ↔ u ∈ recs.map LogRecord.user_id := by
  unfold sortedUsers
  rw [List.mem_insertionSort, List.mem_dedup]

theorem nodup_sortedUsers (recs : List LogRecord) : (sortedUsers recs).Nodup :=
  (List.perm_insertionSort userLe _).symm.nodup
    (List.nodup_dedup (recs.map LogRecord.user_id))

theorem sorted_sortedUsers (recs : List LogRecord) :
    List.Sorted userLe (sortedUsers recs) :=
  List.sorted_insertionSort userLe _

theorem leftJoinRow_user_id {dir : List DirEntry} {m : MetricsRow} {row : ReportRow}
    (h : row ∈ leftJoinRow dir m) : row.user_id = m.user_id := by
  unfold leftJoinRow at h
  split at h
  · rw [List.mem_singleton] at h
    subst h
    rfl
  · obtain ⟨d, _, rfl⟩ := List.mem_map.mp h
    rfl

theorem leftJoinRow_ne_nil (dir : List DirEntry) (m : MetricsRow) :
    leftJoinRow dir m ≠ [] := by
  unfold leftJoinRow
  split
  · simp
  · rename_i ds heq
    simpa using heq

theorem length_leftJoinRow (dir : List DirEntry) (m : MetricsRow) :
    (leftJoinRow dir m).length =
      max 1 (dir.filter (fun d => decide (d.user_id = m.user_id))).length := by
  unfold leftJoinRow
  split
  · rename_i heq
    rw [heq]
    rfl
  · rename_i ds heq
    rw [List.length_map]
    have hne : (dir.filter (fun d => decide (d.user_id = m.user_id))).length ≠ 0 := by
      simpa [List.length_eq_zero] using fun h => heq h
    rw [max_eq_right (Nat.one_le_iff_ne_zero.mpr hne)]

theorem countP_eq_length_of_all {l : List ReportRow} {k : String}
    (h : ∀ r ∈ l, r.user_id = k) (u : String) :
    l.countP (fun r => decide (r.user_id = u)) = if k = u then l.length else 0 := by
  induction l with
  | nil => simp
  | cons r rs ih =>
    have hr := h r (by simp)
    rw [List.countP_cons, ih (fun x hx => h x (by simp [hx]))]
    by_cases hk : k = u <;> simp [hr, hk]

theorem leftJoinRow_countP (dir : List DirEntry) (m : MetricsRow) (u : String) :
    (leftJoinRow dir m).countP (fun r => decide (r.user_id = u)) =
      if m.user_id = u then (leftJoinRow dir m).length else 0 :=
  countP_eq_length_of_all (fun _ hr => leftJoinRow_user_id hr) u

theorem sum_map_ite {α : Type} (p : α → Bool) (K : ℕ) (M : List α) :
    (M.map (fun m => if p m = true then K else 0)).sum = M.countP p * K := by
  induction M with
  | nil => simp
  | cons a l ih =>
    rw [List.map_cons, List.sum_cons, ih, List.countP_cons]
    by_cases h : p a
    · simp [h]
      ring
    · simp [h]

theorem filter_map_metricsRow {recs : List LogRecord} {u : String} :
    ∀ us : List String, us.Nodup → u ∈ us →
      (us.map (metricsRowOf recs)).filter (fun r => decide (r.user_id = u)) =
        [metricsRowOf recs u]
  | [], _, hmem => absurd hmem (List.not_mem_nil u)
  | v :: vs, hnd, hmem => by
    rw [List.map_cons, List.filter_cons]
    rcases List.mem_cons.mp hmem with h | h
    · subst h
      rw [if_pos (by simp [metricsRowOf])]
      have hnil : (vs.map (metricsRowOf recs)).filter
          (fun r => decide (r.user_id = u)) = [] := by
        rw [List.filter_eq_nil_iff]
        intro r hr
        obtain ⟨w, hw, rfl⟩ := List.mem_map.mp hr
        have hwu : w ≠ u := fun hwu => (List.nodup_cons.mp hnd).1 (hwu ▸ hw)
        simp [metricsRowOf, hwu]
      rw [hnil]
    · have hvu : v ≠ u := fun hvu => (List.nodup_cons.mp hnd).1 (hvu ▸ h)
      rw [if_neg (by simp [metricsRowOf, hvu])]
      exact filter_map_metricsRow vs (List.nodup_cons.mp hnd).2 h

theorem dfFinalReport_filter_eq {recs : List LogRecord} {u : String}
    (hu : u ∈ recs.map LogRecord.user_id) :
    (dfFinalReport recs).filter (fun r => decide (r.user_id = u)) =
      [metricsRowOf recs u] :=
  filter_map_metricsRow _ (nodup_sortedUsers recs) (mem_sortedUsers.mpr hu)

theorem roundHalfEven_abs (q : ℚ) : |(roundHalfEven q : ℚ) - q| ≤ 1 / 2 := by
  have h1 : (⌊q⌋ : ℚ) ≤ q := Int.floor_le q
  have h2 : q < ⌊q⌋ + 1 := Int.lt_floor_add_one q
  unfold roundHalfEven
  split
  · rename_i h3
    rw [abs_le]
    constructor
    · linarith
    · linarith
  · rename_i h3
    rw [not_lt] at h3
    split
    · rename_i h4
      rw [abs_le]
      push_cast
      constructor
      · linarith
      · linarith
    · rename_i h4
      rw [not_lt] at h4
      split
      · rw [abs_le]
        constructor
        · linarith
        · linarith
      · rw [abs_le]
        push_cast
        constructor
        · linarith
        · linarith

theorem round10_abs (q : ℚ) : |round10 q - q| ≤ 1 / 20 := by
  have h := roundHalfEven_abs (10 * q)
  unfold round10
  rw [show (roundHalfEven (10 * q) : ℚ) / 10 - q =
      ((roundHalfEven (10 * q) : ℚ) - 10 * q) / 10 by ring]
  rw [abs_div, show |(10 : ℚ)| = 10 by norm_num, div_le_iff₀ (by norm_num : (0 : ℚ) < 10)]
  linarith

theorem round10_den (q : ℚ) : ((10 : ℚ) * round10 q).den = 1 := by
  unfold round10
  rw [mul_comm, div_mul_cancel₀ _ (by norm_num : (10 : ℚ) ≠ 0)]
  exact Rat.den_intCast _

theorem pipeline_eq {raws : List RawRecord} {recs : List LogRecord}
    (s e : String) (dir : List DirEntry)
    (h1 : csvLogFileContent raws = some recs) (h2 : recs ≠ []) :
    pipeline raws s e dir =
      some (dfCPFUsage (dfFinalReport (csvLogFileContentTrimmed recs s e)) dir) := by
  unfold pipeline
  rw [h1]
  simp [List.isEmpty_iff, h2]

theorem trimmed_eq_nil_of_lt {s e : String} (recs : List LogRecord)
    (h : e.data < s.data) : csvLogFileContentTrimmed recs s e = [] := by
  unfold csvLogFileContentTrimmed
  rw [List.filter_eq_nil_iff]
  intro r hr
  have hs : s.data ≤ dayOf r.when_created := by
    have := (List.mem_filter.mp hr).2
    simpa using this
  simp only [decide_eq_true_eq, not_le]
  exact lt_of_lt_of_le h hs

theorem sum_indicator_eq_one {k : String} :
    ∀ us : List String, us.Nodup → k ∈ us →
      (us.map (fun u => if k = u then 1 else 0)).sum = 1
  | [], _, hmem => absurd hmem (List.not_mem_nil k)
  | v :: vs, hnd, hmem => by
    rw [List.map_cons, List.sum_cons]
    rcases List.mem_cons.mp hmem with h | h
    · rw [if_pos h]
      have hzero : ∀ u ∈ vs, (if k = u then 1 else 0) = 0 := by
        intro u hu
        refine if_neg fun hk => ?_
        subst hk
        exact (List.nodup_cons.mp hnd).1 (h ▸ hu)
      rw [List.map_congr_left hzero]
      simp
    · have hkv : k ≠ v := fun hk => (List.nodup_cons.mp hnd).1 (hk ▸ h)
      rw [if_neg hkv, sum_indicator_eq_one vs (List.nodup_cons.mp hnd).2 h]

theorem sum_jobs_eq_length :
    ∀ (rs : List LogRecord) (us : List String), us.Nodup →
      (∀ r ∈ rs, r.user_id ∈ us) →
      (us.map (fun u => (rs.filter (fun r => decide (r.user_id = u))).length)).sum =
        rs.length
  | [], us, _, _ => by simp
  | r :: rest, us, hnd, hcov => by
    have h1 : ∀ u ∈ us,
        ((r :: rest).filter (fun x => decide (x.user_id = u))).length =
          (if r.user_id = u then 1 else 0) +
            (rest.filter (fun x => decide (x.user_id = u))).length := by
      intro u _
      rw [List.filter_cons]
      by_cases h : r.user_id = u
      · simp [h, Nat.add_comm]
      · simp [h]
    rw [List.map_congr_left h1, List.sum_map_add,
      sum_jobs_eq_length rest us hnd (fun x hx => hcov x (List.mem_cons_of_mem r hx)),
      sum_indicator_eq_one us hnd (hcov r (List.mem_cons_self r rest)), List.length_cons,
      Nat.add_comm]

theorem pairwise_leftJoinRow (dir : List DirEntry) (m : MetricsRow) :
    List.Pairwise (fun r r' : ReportRow => r.user_id.data ≤ r'.user_id.data)
      (leftJoinRow dir m) :=
  List.pairwise_of_forall_mem_list fun x hx y hy => by
    rw [leftJoinRow_user_id hx, leftJoinRow_user_id hy]

theorem sorted_dfCPFUsage (recs : List LogRecord) (dir : List DirEntry) :
    List.Pairwise (fun r r' : ReportRow => r.user_id.data ≤ r'.user_id.data)
      (dfCPFUsage (dfFinalReport recs) dir) := by
  unfold dfCPFUsage
  rw [List.flatMap_def, List.pairwise_flatten]
  constructor
  · intro l hl
    obtain ⟨m, _, rfl⟩ := List.mem_map.mp hl
    exact pairwise_leftJoinRow dir m
  · rw [List.pairwise_map]
    have hs : List.Pairwise (fun a b : MetricsRow => userLe a.user_id b.user_id)
        (dfFinalReport recs) := by
      unfold dfFinalReport
      rw [List.pairwise_map]
      exact sorted_sortedUsers recs
    exact hs.imp fun {a b} hab x hx y hy => by
      rw [leftJoinRow_user_id hx, leftJoinRow_user_id hy]
      exact hab

/-! ### Claim theorems -/

/-- C1: for every date-filtered record set and every directory table, the set
of user ids in the final report (`dfCPFUsage`) equals exactly the set of
distinct user ids of the filtered records — every user with a filtered record
appears, no directory-only user appears — and a user with no directory entry
still gets a row, with its directory fields null. -/
theorem c1_join_completeness (filtered : List LogRecord) (dir : List DirEntry)
    (u : String) :
    ((∃ row ∈ dfCPFUsage (dfFinalReport filtered) dir, row.user_id = u) ↔
        u ∈ filtered.map LogRecord.user_id)
    ∧ (u ∈ filtered.map LogRecord.user_id →
        dir.filter (fun d => decide (d.user_id = u)) = [] →
          ∃ row ∈ dfCPFUsage (dfFinalReport filtered) dir,
            row.user_id = u ∧ row.user_name = none ∧ row.email = none ∧
              row.org = none) := by
  constructor
  · constructor
    · rintro ⟨row, hrow, hid⟩
      unfold dfCPFUsage at hrow
      rw [List.mem_flatMap] at hrow
      obtain ⟨m, hm, hrm⟩ := hrow
      have hkey := leftJoinRow_user_id hrm
      unfold dfFinalReport at hm
      obtain ⟨v, hv, rfl⟩ := List.mem_map.mp hm
      have huv : u = v := by
        rw [← hid]
        exact hkey
      rw [huv]
      exact mem_sortedUsers.mp hv
    · intro hu
      have hm : metricsRowOf filtered u ∈ dfFinalReport filtered :=
        List.mem_map.mpr ⟨u, mem_sortedUsers.mpr hu, rfl⟩
      obtain ⟨row, hrow⟩ :=
        List.exists_mem_of_ne_nil _ (leftJoinRow_ne_nil dir (metricsRowOf filtered u))
      refine ⟨row, ?_, leftJoinRow_user_id hrow⟩
      unfold dfCPFUsage
      rw [List.mem_flatMap]
      exact ⟨_, hm, hrow⟩
  · intro hu hdir
    have hm : metricsRowOf filtered u ∈ dfFinalReport filtered :=
      List.mem_map.mpr ⟨u, mem_sortedUsers.mpr hu, rfl⟩
    refine ⟨{ user_id := u, total := (metricsRowOf filtered u).total,
              jobs := (metricsRowOf filtered u).jobs,
              avg := (metricsRowOf filtered u).avg,
              user_name := none, email := none, org := none },
            ?_, rfl, rfl, rfl, rfl⟩
    unfold dfCPFUsage
    rw [List.mem_flatMap]
    refine ⟨metricsRowOf filtered u, hm, ?_⟩
    unfold leftJoinRow
    have hd : dir.filter
        (fun d => decide (d.user_id = (metricsRowOf filtered u).user_id)) = [] := hdir
    rw [hd]
    exact List.mem_singleton.mpr rfl

/-- C1 witness: in the §8 scenario, user `u2` has log activity but no
directory entry, and its report row is emitted with null directory fields. -/
theorem c1_witness :
    ∃ row ∈ dfCPFUsage
        (dfFinalReport [⟨"u1", "2019-09-01 00:00:00.000", 5⟩,
                        ⟨"u1", "2019-09-02 00:00:00.000", 3⟩,
                        ⟨"u2", "2019-09-01 00:00:00.000", 10⟩])
        [⟨"u1", "Alice", "a@x.com", "OrgA"⟩],
      row.user_id = "u2" ∧ row.user_name = none ∧ row.email = none ∧
        row.org = none :=
  (c1_join_completeness
      [⟨"u1", "2019-09-01 00:00:00.000", 5⟩, ⟨"u1", "2019-09-02 00:00:00.000", 3⟩,
       ⟨"u2", "2019-09-01 00:00:00.000", 10⟩]
      [⟨"u1", "Alice", "a@x.com", "OrgA"⟩] "u2").2 (by decide) (by decide)

/-- C2: for every distinct user id u of the filtered record set, the
`dfFinalReport` row for u is unique and carries the job count (number of
filtered records of u), the total (sum of their `num_submitted_requests`),
and the average total/count rounded to one decimal place half-to-even: the
rounded average times ten is an integer and differs from the exact mean by at
most 1/20. -/
theorem c2_per_user_metrics (filtered : List LogRecord) (u : String)
    (hu : u ∈ filtered.map LogRecord.user_id) :
    (dfFinalReport filtered).filter (fun r => decide (r.user_id = u)) =
      [{ user_id := u,
         total := ((filtered.filter (fun r => decide (r.user_id = u))).map
                     LogRecord.num_submitted_requests).sum,
         jobs := (filtered.filter (fun r => decide (r.user_id = u))).length,
         avg := round10 ((((filtered.filter (fun r => decide (r.user_id = u))).map
                     LogRecord.num_submitted_requests).sum : ℚ) /
                 (((filtered.filter (fun r => decide (r.user_id = u))).length : ℚ))) }]
    ∧ |round10 (seriesAveragePerJob filtered u) - seriesAveragePerJob filtered u| ≤ 1 / 20
    ∧ ((10 : ℚ) * round10 (seriesAveragePerJob filtered u)).den = 1 :=
  ⟨dfFinalReport_filter_eq hu, round10_abs _, round10_den _⟩

/-- C2 witness: user `u1` with records of sizes 5 and 3 gets one row with
jobs = 2, total = 8, and average `round10 (8/2)`. -/
theorem c2_witness :
    (dfFinalReport [⟨"u1", "2019-09-01 00:00:00.000", 5⟩,
                    ⟨"u1", "2019-09-02 00:00:00.000", 3⟩]).filter
        (fun r => decide (r.user_id = "u1")) =
      [{ user_id := "u1",
         total := ((([⟨"u1", "2019-09-01 00:00:00.000", 5⟩,
                      ⟨"u1", "2019-09-02 00:00:00.000", 3⟩] : List LogRecord).filter
                     (fun r => decide (r.user_id = "u1"))).map
                     LogRecord.num_submitted_requests).sum,
         jobs := (([⟨"u1", "2019-09-01 00:00:00.000", 5⟩,
                    ⟨"u1", "2019-09-02 00:00:00.000", 3⟩] : List LogRecord).filter
                     (fun r => decide (r.user_id = "u1"))).length,
         avg := round10 (((((([⟨"u1", "2019-09-01 00:00:00.000", 5⟩,
                      ⟨"u1", "2019-09-02 00:00:00.000", 3⟩] : List LogRecord).filter
                     (fun r => decide (r.user_id = "u1"))).map
                     LogRecord.num_submitted_requests).sum : ℚ)) /
                 (((([⟨"u1", "2019-09-01 00:00:00.000", 5⟩,
                      ⟨"u1", "2019-09-02 00:00:00.000", 3⟩] : List LogRecord).filter
                     (fun r => decide (r.user_id = "u1"))).length : ℚ))) }]
    ∧ |round10 (seriesAveragePerJob [⟨"u1", "2019-09-01 00:00:00.000", 5⟩,
          ⟨"u1", "2019-09-02 00:00:00.000", 3⟩] "u1") -
        seriesAveragePerJob [⟨"u1", "2019-09-01 00:00:00.000", 5⟩,
          ⟨"u1", "2019-09-02 00:00:00.000", 3⟩] "u1"| ≤ 1 / 20
    ∧ ((10 : ℚ) * round10 (seriesAveragePerJob [⟨"u1", "2019-09-01 00:00:00.000", 5⟩,
          ⟨"u1", "2019-09-02 00:00:00.000", 3⟩] "u1")).den = 1 :=
  c2_per_user_metrics
    [⟨"u1", "2019-09-01 00:00:00.000", 5⟩, ⟨"u1", "2019-09-02 00:00:00.000", 3⟩]
    "u1" (by decide)

/-- C3: the date filter retains exactly the records whose day token (the
`YYYY-MM-DD` part of `WHEN_CREATED`) satisfies start ≤ day ≤ end under
lexicographic comparison; a record dated exactly start or exactly end is
included (when start ≤ end), and any record whose day compares strictly
below start or strictly above end — in particular one dated one day before
start or one day after end — is excluded. -/
theorem c3_date_filter (recs : List LogRecord) (s e : String) :
    (∀ r : LogRecord, r ∈ csvLogFileContentTrimmed recs s e ↔
        r ∈ recs ∧ s.data ≤ dayOf r.when_created ∧ dayOf r.when_created ≤ e.data)
    ∧ (s.data ≤ e.data → ∀ r ∈ recs,
        dayOf r.when_created = s.data ∨ dayOf r.when_created = e.data →
          r ∈ csvLogFileContentTrimmed recs s e)
    ∧ (∀ r : LogRecord,
        dayOf r.when_created < s.data ∨ e.data < dayOf r.when_created →
          r ∉ csvLogFileContentTrimmed recs s e) := by
  have hmem : ∀ r : LogRecord, r ∈ csvLogFileContentTrimmed recs s e ↔
      r ∈ recs ∧ s.data ≤ dayOf r.when_created ∧ dayOf r.when_created ≤ e.data := by
    intro r
    unfold csvLogFileContentTrimmed
    simp only [List.mem_filter, decide_eq_true_eq, and_assoc]
  refine ⟨hmem, ?_, ?_⟩
  · intro hse r hr hday
    rw [hmem]
    rcases hday with h | h
    · exact ⟨hr, by rw [h], by rw [h]; exact hse⟩
    · exact ⟨hr, by rw [h]; exact hse, by rw [h]⟩
  · intro r h hin
    rw [hmem] at hin
    rcases h with h | h
    · exact absurd hin.2.1 (not_le.mpr h)
    · exact absurd hin.2.2 (not_le.mpr h)

/-- C3 witness: with window 2019-09-01 .. 2019-09-02, a record dated exactly
on the start day is retained. -/
theorem c3_witness :
    (⟨"u1", "2019-09-01 00:00:00.000", 5⟩ : LogRecord) ∈
      csvLogFileContentTrimmed [⟨"u1", "2019-09-01 00:00:00.000", 5⟩]
        "2019-09-01" "2019-09-02" :=
  (c3_date_filter [⟨"u1", "2019-09-01 00:00:00.000", 5⟩]
      "2019-09-01" "2019-09-02").2.1 (by decide) _ (by decide) (Or.inl (by decide))

/-- C4 counterexample: with one metrics row for `u1` and a lookup table
holding two entries keyed `u1`, the left merge emits two rows for `u1`, not
one — pandas fan-out, no single deterministic match. -/
theorem c4_counterexample :
    (([⟨"u1", 5, 1, 5⟩] : List MetricsRow).countP
        (fun m => decide (m.user_id = "u1")) = 1)
    ∧ (dfCPFUsage [⟨"u1", 5, 1, 5⟩]
        [⟨"u1", "Alice", "a@x.com", "OrgA"⟩, ⟨"u1", "Bob", "b@x.com", "OrgB"⟩]).countP
        (fun r => decide (r.user_id = "u1")) = 2 := by
  constructor
  · decide
  · decide

/-- C4 (amended): a user id occurring once in the metrics table appears in
the joined result once per matching directory entry, and at least once:
exactly once when the directory has at most one entry for it, but duplicate
directory keys fan out into one row per match. -/
theorem c4_left_join_multiplicity (M : List MetricsRow) (D : List DirEntry)
    (u : String) (hM : M.countP (fun m => decide (m.user_id = u)) = 1) :
    (dfCPFUsage M D).countP (fun r => decide (r.user_id = u)) =
      max 1 (D.countP (fun d => decide (d.user_id = u))) := by
  unfold dfCPFUsage
  rw [List.flatMap_def, List.countP_flatten, List.map_map]
  have hpt : ∀ m ∈ M,
      (List.countP (fun r => decide (r.user_id = u)) ∘ leftJoinRow D) m =
        if decide (m.user_id = u) = true
        then max 1 (D.countP (fun d => decide (d.user_id = u))) else 0 := by
    intro m _
    simp only [Function.comp_apply]
    rw [leftJoinRow_countP]
    by_cases h : m.user_id = u
    · rw [if_pos h, if_pos (by simp [h]), length_leftJoinRow, h,
        List.countP_eq_length_filter]
    · rw [if_neg h, if_neg (by simp [h])]
  rw [List.map_congr_left hpt, sum_map_ite, hM, one_mul]

/-- C4 witness: a user with no duplicate directory entries (here: none at
all) appears exactly once in the joined result. -/
theorem c4_witness :
    (dfCPFUsage [⟨"u1", 5, 1, 5⟩] [⟨"u2", "Bob", "b@x.com", "OrgB"⟩]).countP
        (fun r => decide (r.user_id = "u1")) =
      max 1 (([⟨"u2", "Bob", "b@x.com", "OrgB"⟩] : List DirEntry).countP
        (fun d => decide (d.user_id = "u1"))) :=
  c4_left_join_multiplicity [⟨"u1", 5, 1, 5⟩] [⟨"u2", "Bob", "b@x.com", "OrgB"⟩]
    "u1" (by decide)

/-- C5 counterexample: `"banana"` is not parseable as a date, yet the run
does not abort: the whole pipeline executes and produces a report. -/
theorem c5_counterexample :
    isValidDate "banana" = false
    ∧ (pipeline [⟨"u1", "2019-09-01 00:00:00.000", "5"⟩] "banana" "zzz"
        []).isSome = true := by
  constructor
  · rfl
  · rfl

/-- C5 (amended): the program performs no date validation at all — whatever
the two date arguments are, parseable as dates or not, a run whose ingested
record set is non-empty proceeds through filtering, aggregation, join and
report production, the arguments being used only as plain strings in the
lexicographic date comparison. -/
theorem c5_no_date_validation (raws : List RawRecord) (s e : String)
    (dir : List DirEntry) (recs : List LogRecord)
    (h1 : csvLogFileContent raws = some recs) (h2 : recs ≠ []) :
    pipeline raws s e dir =
      some (dfCPFUsage (dfFinalReport (csvLogFileContentTrimmed recs s e)) dir) :=
  pipeline_eq s e dir h1 h2

/-- C5 witness: the run with the unparseable bounds `"banana"`/`"zzz"`
completes and returns the report of the (here empty) trimmed frame. -/
theorem c5_witness :
    pipeline [⟨"u1", "2019-09-01 00:00:00.000", "5"⟩] "banana" "zzz" [] =
      some (dfCPFUsage (dfFinalReport (csvLogFileContentTrimmed
        [⟨"u1", "2019-09-01 00:00:00.000", 5⟩] "banana" "zzz")) []) :=
  c5_no_date_validation [⟨"u1", "2019-09-01 00:00:00.000", "5"⟩] "banana" "zzz"
    [] [⟨"u1", "2019-09-01 00:00:00.000", 5⟩] rfl (by decide)

/-- C6 counterexample: `"3.5"` is not a valid integer, yet a row carrying it
is NOT excluded from downstream processing.  In an all-numeric column the
row survives coercion and `astype(int)` truncates it to 3, so the aggregates
with the row (2 jobs totalling 8) differ from those without it (1 job
totalling 5).  Moreover adding a coercion-failing noise row is not
output-preserving either: it flips the column to object dtype, where the
same `"3.5"` cell makes `int()` raise and the run abort. -/
theorem c6_counterexample :
    isNumeric "3.5" = true ∧ parseInt "3.5" = none
    ∧ csvLogFileContent [⟨"u1", "2019-09-01 00:00:00.000", "5"⟩,
        ⟨"u1", "2019-09-01 00:00:00.000", "3.5"⟩] =
        some [⟨"u1", "2019-09-01 00:00:00.000", 5⟩,
              ⟨"u1", "2019-09-01 00:00:00.000", 3⟩]
    ∧ ((dfFinalReport [⟨"u1", "2019-09-01 00:00:00.000", 5⟩,
          ⟨"u1", "2019-09-01 00:00:00.000", 3⟩]).map MetricsRow.jobs).sum = 2
    ∧ ((dfFinalReport [⟨"u1", "2019-09-01 00:00:00.000", 5⟩,
          ⟨"u1", "2019-09-01 00:00:00.000", 3⟩]).map MetricsRow.total).sum = 8
    ∧ csvLogFileContent [⟨"u1", "2019-09-01 00:00:00.000", "5"⟩] =
        some [⟨"u1", "2019-09-01 00:00:00.000", 5⟩]
    ∧ ((dfFinalReport [⟨"u1", "2019-09-01 00:00:00.000", 5⟩]).map
          MetricsRow.jobs).sum = 1
    ∧ ((dfFinalReport [⟨"u1", "2019-09-01 00:00:00.000", 5⟩]).map
          MetricsRow.total).sum = 5
    ∧ csvLogFileContent [⟨"u1", "2019-09-01 00:00:00.000", "3.5"⟩] =
        some [⟨"u1", "2019-09-01 00:00:00.000", 3⟩]
    ∧ csvLogFileContent [⟨"u1", "2019-09-01 00:00:00.000", "3.5"⟩,
        ⟨"USER_ID", "WHEN_CREATED", "NUM_SUBMITTED_REQUESTS"⟩] = none := by
  refine ⟨rfl, rfl, by decide, by decide, by decide, by decide, by decide,
    by decide, by decide, by decide⟩

/-- C6 (amended): when the ingested rows already contain at least one
coercion-failing cell — the operative case, since the merged file carries
the concatenated header rows step 5 exists to remove — adding a further row
whose job-size field fails numeric coercion leaves the entire pipeline
output, hence every aggregate metric, unchanged: in the object-dtype column
such rows are dropped before any downstream processing.  Without an
already-failing cell the exclusion claim does not hold: a
numeric-but-non-integer field is truncated into the aggregates, and adding
the first coercion-failing row itself changes the outcome by flipping the
column dtype (see the counterexample). -/
theorem c6_malformed_row_robustness (raws₁ raws₂ : List RawRecord)
    (bad : RawRecord) (s e : String) (dir : List DirEntry)
    (hbad : isNumeric bad.num_submitted_requests = false)
    (hnoise : ∃ r ∈ raws₁ ++ raws₂, isNumeric r.num_submitted_requests = false) :
    pipeline (raws₁ ++ bad :: raws₂) s e dir = pipeline (raws₁ ++ raws₂) s e dir := by
  have hR : ((raws₁ ++ raws₂).all
      (fun r => isNumeric r.num_submitted_requests)) = false := by
    rw [List.all_eq_false]
    obtain ⟨r, hr, hrf⟩ := hnoise
    exact ⟨r, hr, by simp [hrf]⟩
  have hL : ((raws₁ ++ bad :: raws₂).all
      (fun r => isNumeric r.num_submitted_requests)) = false := by
    simp [List.all_append, List.all_cons, hbad]
  have h : csvLogFileContent (raws₁ ++ bad :: raws₂) =
      csvLogFileContent (raws₁ ++ raws₂) := by
    unfold csvLogFileContent
    rw [if_neg (by simp [hL]), if_neg (by simp [hR]), List.filter_append,
      List.filter_append, List.filter_cons_of_neg (by simp [hbad])]
  unfold pipeline
  rw [h]

/-- C6 witness: with one header-noise row already among the ingested rows,
appending a second coercion-failing row leaves the pipeline output
unchanged. -/
theorem c6_witness :
    pipeline ([⟨"u1", "2019-09-01 00:00:00.000", "5"⟩,
               ⟨"USER_ID", "WHEN_CREATED", "NUM_SUBMITTED_REQUESTS"⟩] ++
        ⟨"ID", "WHEN_CREATED", "NUM_SUBMITTED_REQUESTS"⟩ :: [])
      "2019-09-01" "2019-09-02" [] =
      pipeline ([⟨"u1", "2019-09-01 00:00:00.000", "5"⟩,
                 ⟨"USER_ID", "WHEN_CREATED", "NUM_SUBMITTED_REQUESTS"⟩] ++ [])
        "2019-09-01" "2019-09-02" [] :=
  c6_malformed_row_robustness
    [⟨"u1", "2019-09-01 00:00:00.000", "5"⟩,
     ⟨"USER_ID", "WHEN_CREATED", "NUM_SUBMITTED_REQUESTS"⟩] []
    ⟨"ID", "WHEN_CREATED", "NUM_SUBMITTED_REQUESTS"⟩
    "2019-09-01" "2019-09-02" [] (by decide) (by decide)

/-- C7 counterexample: with zero valid ingested records the date window
matches zero records, but the run aborts (the step-6 date-range printout
raises `IndexError` on the empty frame) instead of emitting a header-only
report. -/
theorem c7_counterexample :
    pipeline ([] : List RawRecord) "2019-01-01" "2019-12-31" [] = none := rfl

/-- C7 (amended): provided at least one valid record was ingested, a date
window matching zero records — in particular every window with start > end —
succeeds and emits a report with the header row and zero data rows.  (With
zero valid ingested records the run aborts before the filter; see the
counterexample and C10.) -/
theorem c7_empty_window (raws : List RawRecord) (s e : String)
    (dir : List DirEntry) (recs : List LogRecord)
    (h1 : csvLogFileContent raws = some recs) (h2 : recs ≠ [])
    (h3 : csvLogFileContentTrimmed recs s e = []) :
    pipeline raws s e dir = some [] ∧ toCsv [] = [csvHeaderRow]
    ∧ (∀ recs' : List LogRecord, e.data < s.data →
        csvLogFileContentTrimmed recs' s e = []) := by
  refine ⟨?_, rfl, fun recs' h => trimmed_eq_nil_of_lt recs' h⟩
  rw [pipeline_eq s e dir h1 h2, h3]
  rfl

/-- C7 witness: a window whose start lies after its end excludes the one
valid record; the run succeeds with an empty, header-only report. -/
theorem c7_witness :
    pipeline [⟨"u1", "2019-09-01 00:00:00.000", "5"⟩] "2019-10-01" "2019-09-30"
        [] = some []
    ∧ toCsv [] = [csvHeaderRow]
    ∧ (∀ recs' : List LogRecord, "2019-09-30".data < "2019-10-01".data →
        csvLogFileContentTrimmed recs' "2019-10-01" "2019-09-30" = []) :=
  c7_empty_window [⟨"u1", "2019-09-01 00:00:00.000", "5"⟩] "2019-10-01"
    "2019-09-30" [] [⟨"u1", "2019-09-01 00:00:00.000", 5⟩] rfl (by decide) (by decide)

/-- C8: for every non-empty filtered record set, the job counts in the
report sum to the total number of filtered records. -/
theorem c8_job_counts_partition (filtered : List LogRecord) (h : filtered ≠ []) :
    ((dfFinalReport filtered).map MetricsRow.jobs).sum = filtered.length := by
  unfold dfFinalReport
  rw [List.map_map]
  exact sum_jobs_eq_length filtered (sortedUsers filtered) (nodup_sortedUsers filtered)
    (fun r hr => mem_sortedUsers.mpr (List.mem_map.mpr ⟨r, hr, rfl⟩))

/-- C8 witness: two users with 2 + 1 records give job counts summing to 3. -/
theorem c8_witness :
    ((dfFinalReport [⟨"u1", "2019-09-01 00:00:00.000", 5⟩,
                     ⟨"u1", "2019-09-02 00:00:00.000", 3⟩,
                     ⟨"u2", "2019-09-01 00:00:00.000", 10⟩]).map
        MetricsRow.jobs).sum = 3 :=
  c8_job_counts_partition
    [⟨"u1", "2019-09-01 00:00:00.000", 5⟩, ⟨"u1", "2019-09-02 00:00:00.000", 3⟩,
     ⟨"u2", "2019-09-01 00:00:00.000", 10⟩] (by decide)

/-- C9: the pipeline is a deterministic function of its inputs — two runs on
identical inputs yield the identical output — and the output row order is
itself deterministic and stable: the produced rows are always in
nondecreasing lexicographic order of user id (the accidental byproduct of
pandas groupby sorting its keys). -/
theorem c9_determinism (raws : List RawRecord) (s e : String) (dir : List DirEntry) :
    pipeline raws s e dir = pipeline raws s e dir
    ∧ ∀ rows, pipeline raws s e dir = some rows →
        List.Pairwise (fun r r' : ReportRow => r.user_id.data ≤ r'.user_id.data) rows := by
  refine ⟨rfl, ?_⟩
  intro rows hrows
  unfold pipeline at hrows
  split at hrows
  · cases hrows
  · split at hrows
    · cases hrows
    · have hr := Option.some.inj hrows
      rw [← hr]
      exact sorted_dfCPFUsage _ _

/-- C9 witness: on a concrete input whose records arrive in reverse user
order, the produced report rows are sorted by user id. -/
theorem c9_witness :
    List.Pairwise (fun r r' : ReportRow => r.user_id.data ≤ r'.user_id.data)
      (dfCPFUsage (dfFinalReport (csvLogFileContentTrimmed
        [⟨"u2", "2019-09-01 00:00:00.000", 5⟩, ⟨"u1", "2019-09-02 00:00:00.000", 3⟩]
        "2019-09-01" "2019-09-02")) []) :=
  (c9_determinism
      [⟨"u2", "2019-09-01 00:00:00.000", "5"⟩, ⟨"u1", "2019-09-02 00:00:00.000", "3"⟩]
      "2019-09-01" "2019-09-02" []).2 _ rfl

/-- C10: when every ingested row fails numeric coercion — the ingested record
set is empty after step 5, before any date filtering — the run aborts (the
`csvLogFileContent.index[0]` date-range printout raises `IndexError`) instead
of producing an empty report. -/
theorem c10_empty_ingestion_abort (raws : List RawRecord) (s e : String)
    (dir : List DirEntry) (h : csvLogFileContent raws = some []) :
    pipeline raws s e dir = none := by
  unfold pipeline
  rw [h]
  rfl

/-- C10 witness: a lone header-noise row is dropped by coercion, leaving zero
valid records, and the run aborts. -/
theorem c10_witness :
    csvLogFileContent [⟨"USER_ID", "WHEN_CREATED", "NUM_SUBMITTED_REQUESTS"⟩] =
        some []
    ∧ pipeline [⟨"USER_ID", "WHEN_CREATED", "NUM_SUBMITTED_REQUESTS"⟩]
        "2019-09-01" "2019-09-02" [] = none :=
  ⟨rfl, c10_empty_ingestion_abort
    [⟨"USER_ID", "WHEN_CREATED", "NUM_SUBMITTED_REQUESTS"⟩] "2019-09-01"
    "2019-09-02" [] rfl⟩

end LogReport
